import Mathlib

/-!
Verification development for the variant / safe-array marshalling layer of
`uiautomation-rs` (crates/uiautomation/src/variants.rs).

The Rust source wraps the foreign VARIANT tagged union (a 16-bit type tag plus
a payload union) and the foreign SAFEARRAY handle.  This file gives a shallow
embedding of that code:

* the payload union is modelled by `Slot`, an inductive recording which union
  field was last written together with the written value; machine integers are
  modelled as `Int` (with explicit wrap-around where the source casts), 32/64
  bit floats as their raw bit patterns (the source never computes with them,
  it only stores and reloads them);
* reading a union field other than the one that was written reinterprets raw
  bytes; except for field pairs that share a slot exactly (documented at each
  reader) such a read is undefined behaviour in the source and is modelled by
  the error `VErr.ub`;
* external OLE conversion routines (VarI1FromI2, ...) are kept abstract: the
  conversion semantics is a parameter (`ConvExt`), while the out-pointer call
  discipline that the source code itself implements is modelled concretely;
* external SAFEARRAY primitives are modelled from the spec (section 6, array
  primitives) over an explicit heap of array buffers, since the foreign
  allocator is outside the repository.
-/

/-! ## VARENUM type tags (numeric values of the Windows VARENUM constants) -/

def VT_EMPTY : Int := 0
def VT_NULL : Int := 1
def VT_I2 : Int := 2
def VT_I4 : Int := 3
def VT_R4 : Int := 4
def VT_R8 : Int := 5
def VT_CY : Int := 6
def VT_DATE : Int := 7
def VT_BSTR : Int := 8
def VT_DISPATCH : Int := 9
def VT_ERROR : Int := 10
def VT_BOOL : Int := 11
def VT_VARIANT : Int := 12
def VT_UNKNOWN : Int := 13
def VT_DECIMAL : Int := 14
def VT_I1 : Int := 16
def VT_UI1 : Int := 17
def VT_UI2 : Int := 18
def VT_UI4 : Int := 19
def VT_I8 : Int := 20
def VT_UI8 : Int := 21
def VT_INT : Int := 22
def VT_UINT : Int := 23
def VT_VOID : Int := 24
def VT_HRESULT : Int := 25
def VT_SAFEARRAY : Int := 27
def VT_LPSTR : Int := 30
def VT_LPWSTR : Int := 31
def VT_ARRAY : Int := 8192

/-- `VARIANT_TRUE` from the source (a 16-bit tri-state boolean). -/
def VARIANT_TRUE : Int := -1

/-- `VARIANT_FALSE` from the source. -/
def VARIANT_FALSE : Int := 0

/-! ## Error taxonomy

Modelled from the spec: section 7 gives the error kinds of the repository
(`errors.rs` is not part of the provided source): `TypeError` (`ERR_TYPE`),
`NullPointer` (`ERR_NULL_PTR`), `ExternalError` (a foreign status code
surfaced verbatim).  `ub` is a model-level marker for executions that are
undefined behaviour in the source (wild or null pointer reads and writes). -/

inductive VErr where
  | typeErr (msg : String)
  | nullPtr (msg : String)
  | extErr (hr : Int)
  | ub
  deriving DecidableEq

/-- Modelled from the spec: foreign status code E_INVALIDARG, reported by the
external array primitives for a null or invalid handle (section 6). -/
def E_INVALIDARG : Int := -2147024809

/-- Modelled from the spec: foreign status code DISP_E_BADINDEX, reported by
the external array primitives for an out-of-bounds index (section 4.5). -/
def DISP_E_BADINDEX : Int := -2147352565

/-! ## Integer casts used by the source -/

/-- Rust cast `i8 as u8`: two-complement reinterpretation of a byte. -/
def u8_of_i8 (v : Int) : Int := v % 256

/-- Rust cast `u8 as i8`: the inverse byte reinterpretation, for `v` in
`[0, 256)`. -/
def i8_of_u8 (v : Int) : Int := if v < 128 then v else v - 256

/-- Rust cast `i32 as u64` (used by `TryInto<u64>` at `VT_I4`):
two-complement wrap into `[0, 2^64)`. -/
def u64_of_i32 (v : Int) : Int := v % 18446744073709551616

/-! ## The payload union (`VARIANT_0_0_0`) and the variant wrapper -/

/-- The string pointer slot of the union.  `bstrVal`, `pwszVal` and `pcVal`
alias this slot; `wide` is a BSTR / wide string handle, `narrow` a narrow
(`PSTR`) string handle. -/
inductive StrSlot where
  | wide (s : String)
  | narrow (s : String)
  deriving DecidableEq

mutual

/-- The payload union `VARIANT_0_0_0`: which field was last written, and the
written value.  Field pairs of identical width and offset share a
constructor: `boolVal` and `__OBSOLETE__VARIANT_BOOL` share `iVal` (16-bit),
`intVal` shares `lVal` (32-bit), `cyVal.int64` shares `llVal` (64-bit),
`uintVal` shares `ulVal` (32-bit), `date` shares `dblVal` (64-bit float
bits).  `varVal` and `decVal` record the pointee at the time the pointer was
written (the source actually stores a pointer to a local there, see
`Variant.from_value`). -/
inductive Slot where
  | empty
  | bVal (v : Int)
  | iVal (v : Int)
  | lVal (v : Int)
  | llVal (v : Int)
  | uiVal (v : Int)
  | ulVal (v : Int)
  | ullVal (v : Int)
  | fltVal (v : Int)
  | dblVal (v : Int)
  | strVal (s : StrSlot)
  | dispVal (h : Option Nat)
  | unkVal (h : Option Nat)
  | varVal (v : Variant)
  | decVal (d : Int)
  | parray (h : Option Nat)

/-- The `Variant` wrapper: a 16-bit tag plus the payload union. -/
inductive Variant where
  | mk (vt : Int) (slot : Slot)

end

/-- The `SafeArray` wrapper: a raw `*mut SAFEARRAY` handle (`none` models a
null pointer, `some h` a handle into the external heap) plus the ownership
flag. -/
structure SafeArray where
  array : Option Nat
  owned : Bool
  deriving DecidableEq

/-- The `Value` enum of the source: the safe tagged representation. -/
inductive Value where
  | EMPTY
  | NULL
  | VOID
  | I1 (v : Int)
  | I2 (v : Int)
  | I4 (v : Int)
  | I8 (v : Int)
  | INT (v : Int)
  | UI1 (v : Int)
  | UI2 (v : Int)
  | UI4 (v : Int)
  | UI8 (v : Int)
  | UINT (v : Int)
  | R4 (v : Int)
  | R8 (v : Int)
  | CURRENCY (v : Int)
  | DATE (v : Int)
  | STRING (s : String)
  | UNKNOWN (h : Nat)
  | DISPATCH (h : Nat)
  | ERROR (h : Int)
  | HRESULT (h : Int)
  | BOOL (b : Bool)
  | VARIANT (v : Variant)
  | DECIMAL (d : Int)
  | SAFEARRAY (a : SafeArray)
  | ARRAY (a : SafeArray)

/-! ## Union field readers

Each reader returns the stored value when the requested field is the one that
was written (or a field sharing the identical slot, see `Slot`), and `VErr.ub`
otherwise: reading a different union interpretation is undefined behaviour
(spec section 3, DynamicValue invariant). -/

/-- Read `bVal` (the unsigned byte field). -/
def read_bVal : Slot → Except VErr Int
  | .bVal v => .ok v
  | _ => .error .ub

/-- Read `cVal` (the `CHAR` field, same byte as `bVal`, interpreted signed). -/
def read_cVal : Slot → Except VErr Int
  | .bVal v => .ok (i8_of_u8 v)
  | _ => .error .ub

/-- Read `iVal` / `boolVal` / `__OBSOLETE__VARIANT_BOOL` (the 16-bit field). -/
def read_iVal : Slot → Except VErr Int
  | .iVal v => .ok v
  | _ => .error .ub

/-- Read `lVal` / `intVal` (the 32-bit field). -/
def read_lVal : Slot → Except VErr Int
  | .lVal v => .ok v
  | _ => .error .ub

/-- Read `llVal` / `cyVal.int64` (the 64-bit field). -/
def read_llVal : Slot → Except VErr Int
  | .llVal v => .ok v
  | _ => .error .ub

/-- Read `uiVal` (the unsigned 16-bit field). -/
def read_uiVal : Slot → Except VErr Int
  | .uiVal v => .ok v
  | _ => .error .ub

/-- Read `ulVal` / `uintVal` (the unsigned 32-bit field). -/
def read_ulVal : Slot → Except VErr Int
  | .ulVal v => .ok v
  | _ => .error .ub

/-- Read `ullVal` (the unsigned 64-bit field). -/
def read_ullVal : Slot → Except VErr Int
  | .ullVal v => .ok v
  | _ => .error .ub

/-- Read `fltVal` (the 32-bit float field, modelled as its bit pattern). -/
def read_fltVal : Slot → Except VErr Int
  | .fltVal v => .ok v
  | _ => .error .ub

/-- Read `dblVal` / `date` (the 64-bit float field, modelled as its bits). -/
def read_dblVal : Slot → Except VErr Int
  | .dblVal v => .ok v
  | _ => .error .ub

/-- Read `bstrVal` and convert with `BSTR::to_string` (lossless for a wide
string handle; reinterpreting a narrow `PSTR` as a BSTR reads the bytes as
UTF-16 with no length information, which is undefined behaviour). -/
def read_bstrVal : Slot → Except VErr String
  | .strVal (.wide s) => .ok s
  | _ => .error .ub

/-- Read `pcVal` and decode the narrow string byte-by-byte until NUL, as the
(dead) `VT_LPSTR` branch of the source does; for a narrow handle holding a
NUL-free UTF-8 string the loop reconstructs exactly that string. -/
def read_pcVal : Slot → Except VErr String
  | .strVal (.narrow s) => .ok s
  | _ => .error .ub

/-- Read `pdispVal` (`ManuallyDrop<Option<IDispatch>>`): `none` is a null
interface pointer. -/
def read_dispVal : Slot → Except VErr (Option Nat)
  | .dispVal h => .ok h
  | _ => .error .ub

/-- Read `pvarVal` and clone the pointee.  The source stored a pointer to a
local that is gone by the time this runs (see `Variant.from_value`); the model
returns the pointee recorded at write time. -/
def read_varVal : Slot → Except VErr Variant
  | .varVal v => .ok v
  | _ => .error .ub

/-- Read `pdecVal` and clone the pointee (same dangling-pointer caveat as
`read_varVal`). -/
def read_decVal : Slot → Except VErr Int
  | .decVal d => .ok d
  | _ => .error .ub

/-- Read `parray` (the `*mut SAFEARRAY` field). -/
def read_parray : Slot → Except VErr (Option Nat)
  | .parray h => .ok h
  | _ => .error .ub

/-! ## `impl From<Value> for Variant` (source lines 321-353) -/

/-- `Variant::from(value: Value)`: a straight tag plus payload mapping.
`SAFEARRAY` and `ARRAY` both map to `VT_SAFEARRAY`.  For `VARIANT` and
`DECIMAL` the source stores a pointer to a stack local (which dangles once the
conversion returns); the model records the pointee at write time. -/
def Variant.from_value : Value → Variant
  | .EMPTY => .mk VT_EMPTY .empty
  | .NULL => .mk VT_NULL .empty
  | .VOID => .mk VT_VOID .empty
  | .I1 v => .mk VT_I1 (.bVal (u8_of_i8 v))
  | .I2 v => .mk VT_I2 (.iVal v)
  | .I4 v => .mk VT_I4 (.lVal v)
  | .I8 v => .mk VT_I8 (.llVal v)
  | .INT v => .mk VT_INT (.lVal v)
  | .UI1 v => .mk VT_UI1 (.bVal v)
  | .UI2 v => .mk VT_UI2 (.uiVal v)
  | .UI4 v => .mk VT_UI4 (.ulVal v)
  | .UI8 v => .mk VT_UI8 (.ullVal v)
  | .UINT v => .mk VT_UINT (.ulVal v)
  | .R4 v => .mk VT_R4 (.fltVal v)
  | .R8 v => .mk VT_R8 (.dblVal v)
  | .CURRENCY v => .mk VT_CY (.llVal v)
  | .DATE v => .mk VT_DATE (.dblVal v)
  | .STRING s => .mk VT_BSTR (.strVal (.wide s))
  | .UNKNOWN h => .mk VT_UNKNOWN (.unkVal (some h))
  | .DISPATCH h => .mk VT_DISPATCH (.dispVal (some h))
  | .ERROR h => .mk VT_ERROR (.lVal h)
  | .HRESULT h => .mk VT_HRESULT (.lVal h)
  | .BOOL b => .mk VT_BOOL (.iVal (if b then VARIANT_TRUE else VARIANT_FALSE))
  | .VARIANT v => .mk VT_VARIANT (.varVal v)
  | .DECIMAL d => .mk VT_DECIMAL (.decVal d)
  | .SAFEARRAY a => .mk VT_SAFEARRAY (.parray a.array)
  | .ARRAY a => .mk VT_SAFEARRAY (.parray a.array)

/-! ## Tag inspection (source lines 133-200) -/

/-- `Variant::vt()`: the raw tag. -/
def Variant.vt : Variant → Int
  | .mk vt _ => vt

/-- `Variant::is_null()`: true when vt is VT_EMPTY, VT_NULL or VT_VOID. -/
def Variant.is_null (v : Variant) : Bool :=
  v.vt == VT_EMPTY || v.vt == VT_NULL || v.vt == VT_VOID

/-- `Variant::is_string()`: true when vt is VT_BSTR, VT_LPWSTR or VT_LPSTR. -/
def Variant.is_string (v : Variant) : Bool :=
  v.vt == VT_BSTR || v.vt == VT_LPWSTR || v.vt == VT_LPSTR

/-- `Variant::is_array()`: true when vt is VT_SAFEARRAY or VT_ARRAY. -/
def Variant.is_array (v : Variant) : Bool :=
  v.vt == VT_SAFEARRAY || v.vt == VT_ARRAY

/-! ## `impl TryInto<Value> for &Variant` (source lines 355-509) -/

/-- `Variant::try_into::<Value>()` / `get_value()`: exhaustive tag dispatch.
Faithful quirks of the source, kept deliberately:

* the first string branch tests `VT_BSTR || VT_LPSTR` (source line 437) and
  reads `bstrVal`, so the second `VT_LPSTR` test (line 442) is dead and
  `VT_LPWSTR` is not recognised at all;
* `VT_DISPATCH` and `VT_UNKNOWN` read the by-reference fields `ppdispVal` and
  `ppunkVal`: this dereferences the stored interface pointer itself as if it
  were a pointer to an interface pointer, which is undefined behaviour for a
  variant written through `pdispVal` or `punkVal`, hence `VErr.ub`;
* `VT_ERROR` produces `Value.HRESULT`, not `Value.ERROR`;
* both array tags produce `Value.SAFEARRAY` with a borrowed handle. -/
def Variant.try_into_value : Variant → Except VErr Value
  | .mk vt slot =>
    if vt = VT_EMPTY then .ok .EMPTY
    else if vt = VT_NULL then .ok .NULL
    else if vt = VT_VOID then .ok .VOID
    else if vt = VT_I1 then do let v ← read_bVal slot; .ok (.I1 (i8_of_u8 v))
    else if vt = VT_I2 then do let v ← read_iVal slot; .ok (.I2 v)
    else if vt = VT_I4 then do let v ← read_lVal slot; .ok (.I4 v)
    else if vt = VT_I8 then do let v ← read_llVal slot; .ok (.I8 v)
    else if vt = VT_INT then do let v ← read_lVal slot; .ok (.INT v)
    else if vt = VT_UI1 then do let v ← read_bVal slot; .ok (.UI1 v)
    else if vt = VT_UI2 then do let v ← read_uiVal slot; .ok (.UI2 v)
    else if vt = VT_UI4 then do let v ← read_ulVal slot; .ok (.UI4 v)
    else if vt = VT_UI8 then do let v ← read_ullVal slot; .ok (.UI8 v)
    else if vt = VT_UINT then do let v ← read_ulVal slot; .ok (.UINT v)
    else if vt = VT_R4 then do let v ← read_fltVal slot; .ok (.R4 v)
    else if vt = VT_R8 then do let v ← read_dblVal slot; .ok (.R8 v)
    else if vt = VT_CY then do let v ← read_llVal slot; .ok (.CURRENCY v)
    else if vt = VT_DATE then do let v ← read_dblVal slot; .ok (.DATE v)
    else if vt = VT_BSTR ∨ vt = VT_LPSTR then do
      let s ← read_bstrVal slot
      .ok (.STRING s)
    else if vt = VT_LPSTR then do
      -- dead branch: already caught by the previous condition
      let s ← read_pcVal slot
      .ok (.STRING s)
    else if vt = VT_DISPATCH then
      -- source dereferences `ppdispVal`: undefined behaviour, see above
      .error .ub
    else if vt = VT_UNKNOWN then
      -- source dereferences `ppunkVal`: undefined behaviour, see above
      .error .ub
    else if vt = VT_ERROR then do let v ← read_lVal slot; .ok (.HRESULT v)
    else if vt = VT_HRESULT then do let v ← read_lVal slot; .ok (.HRESULT v)
    else if vt = VT_BOOL then do let v ← read_iVal slot; .ok (.BOOL (v != 0))
    else if vt = VT_VARIANT then do let v ← read_varVal slot; .ok (.VARIANT v)
    else if vt = VT_DECIMAL then do let v ← read_decVal slot; .ok (.DECIMAL v)
    else if vt = VT_SAFEARRAY ∨ vt = VT_ARRAY then do
      let h ← read_parray slot
      .ok (.SAFEARRAY ⟨h, false⟩)
    else .error (.typeErr "")

/-- `Variant::get_value()`. -/
def Variant.get_value (v : Variant) : Except VErr Value :=
  v.try_into_value

/-- `Variant::get_string()`: `get_value` then match on `STRING` (source lines
174-180). -/
def Variant.get_string (v : Variant) : Except VErr String :=
  match v.get_value with
  | .ok (.STRING s) => .ok s
  | .ok _ => .error (.typeErr "Error Variant Type")
  | .error e => .error e

/-! ## External conversion oracles and out-pointer call discipline

The numeric coercion routines (`VarI1FromI2`, `VarBoolFromCy`, ...) live in
the external OLE subsystem; their rounding / truncation / locale semantics is
out of scope (spec section 4.2 delegates it).  Each target type therefore
takes a `ConvExt` record of abstract conversion functions: `.ok r` means the
routine succeeds producing `r`, `.error hr` that it reports the foreign
status code `hr`.  What the source code itself implements — which union field
it feeds the routine, and how it passes and reads the out-pointer — is
modelled concretely below. -/

/-- Abstract semantics of the external `VarXFromY` conversion family for one
fixed target type X: one function per source representation Y. -/
structure ConvExt where
  fromBool : Int → Except Int Int
  fromCy : Int → Except Int Int
  fromDate : Int → Except Int Int
  fromDec : Int → Except Int Int
  fromDisp : Nat → Except Int Int
  fromI1 : Int → Except Int Int
  fromI2 : Int → Except Int Int
  fromI4 : Int → Except Int Int
  fromI8 : Int → Except Int Int
  fromR4 : Int → Except Int Int
  fromR8 : Int → Except Int Int
  fromStr : String → Except Int Int
  fromUI1 : Int → Except Int Int
  fromUI2 : Int → Except Int Int
  fromUI4 : Int → Except Int Int
  fromUI8 : Int → Except Int Int

/-- Lift a direct-value-returning external conversion (`VarI2FromDate(x)?`
style) into the variant error monad: a foreign failure surfaces verbatim as
`ExternalError` (spec section 6). -/
def liftConv (c : Except Int Int) : Except VErr Int :=
  match c with
  | .ok v => .ok v
  | .error hr => .error (.extErr hr)

/-- A caller-provided out-buffer for the out-pointer conversion routines:
`none` models a null pointer, `some v` a valid one-element buffer currently
holding `v`. -/
abbrev OutPtr := Option Int

/-- One external out-pointer conversion call: on success the routine writes
its result through the pointer.  Writing through a null pointer cannot
deliver the result and faults, modelled as `VErr.ub`. -/
def varOutWrite (conv : Except Int Int) (p : OutPtr) : Except VErr OutPtr :=
  match conv with
  | .error hr => .error (.extErr hr)
  | .ok r =>
    match p with
    | some _ => .ok (some r)
    | none => .error .ub

/-- Read the pointee back (`v[0]`, or `*pc.0`): reading through a null
pointer is a fault. -/
def readOutPtr (p : OutPtr) : Except VErr Int :=
  match p with
  | some v => .ok v
  | none => .error .ub

/-- The `variant_as_i1!` macro (source lines 640-648): it passes
`PSTR::null()` as the out-pointer to the conversion routine and then
dereferences that null pointer to read the result. -/
def variant_as_i1 (conv : Except Int Int) : Except VErr Int := do
  let pc : OutPtr := none
  let pc ← varOutWrite conv pc
  readOutPtr pc

/-- The `variant_as_type!` macro (source lines 660-668): it allocates a
one-element buffer initialised to zero, lets the routine write through the
pointer, and reads the element back. -/
def variant_as_type (conv : Except Int Int) : Except VErr Int := do
  let v : OutPtr := some 0
  let v ← varOutWrite conv v
  readOutPtr v

/-- The `variant_atoi!` macro (source lines 650-658): convert the string to an
HSTRING (lossless) and call the direct-value-returning string conversion. -/
def variant_atoi (conv : String → Except Int Int) (s : String) : Except VErr Int :=
  liftConv (conv s)

/-- The `dispatch_as_type!` macro (source lines 670-680): a non-null dispatch
handle is converted by the external routine, a null handle yields zero
without calling out. -/
def dispatch_as_type (conv : Nat → Except Int Int) (slot : Slot) : Except VErr Int := do
  match ← read_dispVal slot with
  | some d => liftConv (conv d)
  | none => .ok 0

/-! ## `impl TryInto<primitive> for &Variant` (source lines 525-1161)

Each target keeps the branch list and order of its source `match`.  Floats
are carried as bit patterns; the zero produced for a null dispatch handle is
the all-zero pattern, which is the float zero. -/

/-- `TryInto<bool>` (source lines 525-561). -/
def Variant.try_into_bool (ext : ConvExt) : Variant → Except VErr Bool
  | .mk vt slot => do
    let val : Int ←
      if vt = VT_BOOL then read_iVal slot
      else if vt = VT_CY then do let c ← read_llVal slot; liftConv (ext.fromCy c)
      else if vt = VT_DATE then do let d ← read_dblVal slot; liftConv (ext.fromDate d)
      else if vt = VT_DECIMAL then do let d ← read_decVal slot; liftConv (ext.fromDec d)
      else if vt = VT_I1 then do let c ← read_cVal slot; liftConv (ext.fromI1 c)
      else if vt = VT_I2 then do let i ← read_iVal slot; liftConv (ext.fromI2 i)
      else if vt = VT_I4 ∨ vt = VT_INT then do let l ← read_lVal slot; liftConv (ext.fromI4 l)
      else if vt = VT_I8 then do let l ← read_llVal slot; liftConv (ext.fromI8 l)
      else if vt = VT_R4 then do let r ← read_fltVal slot; liftConv (ext.fromR4 r)
      else if vt = VT_R8 then do let r ← read_dblVal slot; liftConv (ext.fromR8 r)
      else if vt = VT_BSTR ∨ vt = VT_LPWSTR ∨ vt = VT_LPSTR then do
        let s ← Variant.get_string (.mk vt slot)
        liftConv (ext.fromStr s)
      else if vt = VT_UI1 then do let b ← read_bVal slot; liftConv (ext.fromUI1 b)
      else if vt = VT_UI2 then do let u ← read_uiVal slot; liftConv (ext.fromUI2 u)
      else if vt = VT_UI4 ∨ vt = VT_UINT then do let u ← read_ulVal slot; liftConv (ext.fromUI4 u)
      else if vt = VT_UI8 then do let u ← read_ullVal slot; liftConv (ext.fromUI8 u)
      else if vt = VT_DISPATCH then do
        match ← read_dispVal slot with
        | some d => liftConv (ext.fromDisp d)
        | none => .ok VARIANT_FALSE
      else .error (.typeErr "Error Variant Type")
    .ok (val != 0)

/-- `TryInto<i8>` (source lines 682-727).  Every non-self conversion goes
through the null-out-pointer pattern of `variant_as_i1!` (including the
inline `VT_DISPATCH` some-branch and the `VT_BSTR` branch). -/
def Variant.try_into_i8 (ext : ConvExt) : Variant → Except VErr Int
  | .mk vt slot =>
    if vt = VT_BOOL then do let b ← read_iVal slot; variant_as_i1 (ext.fromBool b)
    else if vt = VT_CY then do let c ← read_llVal slot; variant_as_i1 (ext.fromCy c)
    else if vt = VT_DATE then do let d ← read_dblVal slot; variant_as_i1 (ext.fromDate d)
    else if vt = VT_DECIMAL then do let d ← read_decVal slot; variant_as_i1 (ext.fromDec d)
    else if vt = VT_DISPATCH then do
      match ← read_dispVal slot with
      | some d => variant_as_i1 (ext.fromDisp d)
      | none => .ok 0
    else if vt = VT_I1 then do let b ← read_bVal slot; .ok (i8_of_u8 b)
    else if vt = VT_I2 then do let i ← read_iVal slot; variant_as_i1 (ext.fromI2 i)
    else if vt = VT_I4 ∨ vt = VT_INT then do let l ← read_lVal slot; variant_as_i1 (ext.fromI4 l)
    else if vt = VT_I8 then do let l ← read_llVal slot; variant_as_i1 (ext.fromI8 l)
    else if vt = VT_R4 then do let r ← read_fltVal slot; variant_as_i1 (ext.fromR4 r)
    else if vt = VT_R8 then do let r ← read_dblVal slot; variant_as_i1 (ext.fromR8 r)
    else if vt = VT_BSTR ∨ vt = VT_LPWSTR ∨ vt = VT_LPSTR then do
      let s ← Variant.get_string (.mk vt slot)
      variant_as_i1 (ext.fromStr s)
    else if vt = VT_UI1 then do let b ← read_bVal slot; variant_as_i1 (ext.fromUI1 b)
    else if vt = VT_UI2 then do let u ← read_uiVal slot; variant_as_i1 (ext.fromUI2 u)
    else if vt = VT_UI4 ∨ vt = VT_UINT then do let u ← read_ulVal slot; variant_as_i1 (ext.fromUI4 u)
    else if vt = VT_UI8 then do let u ← read_ullVal slot; variant_as_i1 (ext.fromUI8 u)
    else .error (.typeErr "Error Variant Type")

/-- `TryInto<i16>` (source lines 743-781). -/
def Variant.try_into_i16 (ext : ConvExt) : Variant → Except VErr Int
  | .mk vt slot =>
    if vt = VT_BOOL then do let b ← read_iVal slot; liftConv (ext.fromBool b)
    else if vt = VT_CY then do let c ← read_llVal slot; variant_as_type (ext.fromCy c)
    else if vt = VT_DATE then do let d ← read_dblVal slot; liftConv (ext.fromDate d)
    else if vt = VT_DECIMAL then do let d ← read_decVal slot; liftConv (ext.fromDec d)
    else if vt = VT_DISPATCH then dispatch_as_type ext.fromDisp slot
    else if vt = VT_I1 then do let c ← read_cVal slot; liftConv (ext.fromI1 c)
    else if vt = VT_I2 then read_iVal slot
    else if vt = VT_I4 ∨ vt = VT_INT then do let l ← read_lVal slot; liftConv (ext.fromI4 l)
    else if vt = VT_I8 then do let l ← read_llVal slot; liftConv (ext.fromI8 l)
    else if vt = VT_R4 then do let r ← read_fltVal slot; liftConv (ext.fromR4 r)
    else if vt = VT_R8 then do let r ← read_dblVal slot; liftConv (ext.fromR8 r)
    else if vt = VT_BSTR ∨ vt = VT_LPWSTR ∨ vt = VT_LPSTR then do
      let s ← Variant.get_string (.mk vt slot)
      variant_atoi ext.fromStr s
    else if vt = VT_UI1 then do let b ← read_bVal slot; liftConv (ext.fromUI1 b)
    else if vt = VT_UI2 then do let u ← read_uiVal slot; liftConv (ext.fromUI2 u)
    else if vt = VT_UI4 ∨ vt = VT_UINT then do let u ← read_ulVal slot; liftConv (ext.fromUI4 u)
    else if vt = VT_UI8 then do let u ← read_ullVal slot; liftConv (ext.fromUI8 u)
    else .error (.typeErr "Error Variant Type")

/-- `TryInto<i32>` (source lines 797-830). -/
def Variant.try_into_i32 (ext : ConvExt) : Variant → Except VErr Int
  | .mk vt slot =>
    if vt = VT_BOOL then do let b ← read_iVal slot; liftConv (ext.fromBool b)
    else if vt = VT_CY then do let c ← read_llVal slot; liftConv (ext.fromCy c)
    else if vt = VT_DATE then do let d ← read_dblVal slot; liftConv (ext.fromDate d)
    else if vt = VT_DECIMAL then do let d ← read_decVal slot; liftConv (ext.fromDec d)
    else if vt = VT_DISPATCH then dispatch_as_type ext.fromDisp slot
    else if vt = VT_I1 then do let c ← read_cVal slot; liftConv (ext.fromI1 c)
    else if vt = VT_I2 then do let i ← read_iVal slot; liftConv (ext.fromI2 i)
    else if vt = VT_I4 ∨ vt = VT_INT then read_lVal slot
    else if vt = VT_I8 then do let l ← read_llVal slot; liftConv (ext.fromI8 l)
    else if vt = VT_R4 then do let r ← read_fltVal slot; liftConv (ext.fromR4 r)
    else if vt = VT_R8 then do let r ← read_dblVal slot; liftConv (ext.fromR8 r)
    else if vt = VT_BSTR ∨ vt = VT_LPWSTR ∨ vt = VT_LPSTR then do
      let s ← Variant.get_string (.mk vt slot)
      variant_atoi ext.fromStr s
    else if vt = VT_UI1 then do let b ← read_bVal slot; liftConv (ext.fromUI1 b)
    else if vt = VT_UI2 then do let u ← read_uiVal slot; liftConv (ext.fromUI2 u)
    else if vt = VT_UI4 ∨ vt = VT_UINT then do let u ← read_ulVal slot; liftConv (ext.fromUI4 u)
    else if vt = VT_UI8 then do let u ← read_ullVal slot; liftConv (ext.fromUI8 u)
    else .error (.typeErr "Error Variant Type")

/-- `TryInto<i64>` (source lines 846-887).  `VT_I4 | VT_INT` is a plain
sign-extending read (`lVal as i64`), no external call. -/
def Variant.try_into_i64 (ext : ConvExt) : Variant → Except VErr Int
  | .mk vt slot =>
    if vt = VT_BOOL then do let b ← read_iVal slot; liftConv (ext.fromBool b)
    else if vt = VT_CY then do let c ← read_llVal slot; liftConv (ext.fromCy c)
    else if vt = VT_DATE then do let d ← read_dblVal slot; liftConv (ext.fromDate d)
    else if vt = VT_DECIMAL then do let d ← read_decVal slot; liftConv (ext.fromDec d)
    else if vt = VT_DISPATCH then dispatch_as_type ext.fromDisp slot
    else if vt = VT_I1 then do let c ← read_cVal slot; liftConv (ext.fromI1 c)
    else if vt = VT_I2 then do let i ← read_iVal slot; liftConv (ext.fromI2 i)
    else if vt = VT_I4 ∨ vt = VT_INT then read_lVal slot
    else if vt = VT_I8 then read_llVal slot
    else if vt = VT_R4 then do let r ← read_fltVal slot; liftConv (ext.fromR4 r)
    else if vt = VT_R8 then do let r ← read_dblVal slot; liftConv (ext.fromR8 r)
    else if vt = VT_BSTR ∨ vt = VT_LPWSTR ∨ vt = VT_LPSTR then do
      let s ← Variant.get_string (.mk vt slot)
      variant_atoi ext.fromStr s
    else if vt = VT_UI1 then do let b ← read_bVal slot; liftConv (ext.fromUI1 b)
    else if vt = VT_UI2 then do let u ← read_uiVal slot; liftConv (ext.fromUI2 u)
    else if vt = VT_UI4 ∨ vt = VT_UINT then do let u ← read_ulVal slot; liftConv (ext.fromUI4 u)
    else if vt = VT_UI8 then do let u ← read_ullVal slot; liftConv (ext.fromUI8 u)
    else .error (.typeErr "Error Variant Type")

/-- `TryInto<f32>` (source lines 895-933). -/
def Variant.try_into_f32 (ext : ConvExt) : Variant → Except VErr Int
  | .mk vt slot =>
    if vt = VT_BOOL then do let b ← read_iVal slot; liftConv (ext.fromBool b)
    else if vt = VT_CY then do let c ← read_llVal slot; variant_as_type (ext.fromCy c)
    else if vt = VT_DATE then do let d ← read_dblVal slot; liftConv (ext.fromDate d)
    else if vt = VT_DECIMAL then do let d ← read_decVal slot; liftConv (ext.fromDec d)
    else if vt = VT_DISPATCH then dispatch_as_type ext.fromDisp slot
    else if vt = VT_I1 then do let c ← read_cVal slot; liftConv (ext.fromI1 c)
    else if vt = VT_I2 then do let i ← read_iVal slot; liftConv (ext.fromI2 i)
    else if vt = VT_I4 ∨ vt = VT_INT then do let l ← read_lVal slot; liftConv (ext.fromI4 l)
    else if vt = VT_I8 then do let l ← read_llVal slot; liftConv (ext.fromI8 l)
    else if vt = VT_R4 then read_fltVal slot
    else if vt = VT_R8 then do let r ← read_dblVal slot; liftConv (ext.fromR8 r)
    else if vt = VT_BSTR ∨ vt = VT_LPWSTR ∨ vt = VT_LPSTR then do
      let s ← Variant.get_string (.mk vt slot)
      variant_atoi ext.fromStr s
    else if vt = VT_UI1 then do let b ← read_bVal slot; liftConv (ext.fromUI1 b)
    else if vt = VT_UI2 then do let u ← read_uiVal slot; liftConv (ext.fromUI2 u)
    else if vt = VT_UI4 ∨ vt = VT_UINT then do let u ← read_ulVal slot; liftConv (ext.fromUI4 u)
    else if vt = VT_UI8 then do let u ← read_ullVal slot; liftConv (ext.fromUI8 u)
    else .error (.typeErr "Error Variant Type")

/-- `TryInto<f64>` (source lines 949-977).  `VT_CY` and `VT_I1` go through
`variant_as_type!`. -/
def Variant.try_into_f64 (ext : ConvExt) : Variant → Except VErr Int
  | .mk vt slot =>
    if vt = VT_BOOL then do let b ← read_iVal slot; liftConv (ext.fromBool b)
    else if vt = VT_CY then do let c ← read_llVal slot; variant_as_type (ext.fromCy c)
    else if vt = VT_DATE then do let d ← read_dblVal slot; liftConv (ext.fromDate d)
    else if vt = VT_DECIMAL then do let d ← read_decVal slot; liftConv (ext.fromDec d)
    else if vt = VT_DISPATCH then dispatch_as_type ext.fromDisp slot
    else if vt = VT_I1 then do let c ← read_cVal slot; variant_as_type (ext.fromI1 c)
    else if vt = VT_I2 then do let i ← read_iVal slot; liftConv (ext.fromI2 i)
    else if vt = VT_I4 ∨ vt = VT_INT then do let l ← read_lVal slot; liftConv (ext.fromI4 l)
    else if vt = VT_I8 then do let l ← read_llVal slot; liftConv (ext.fromI8 l)
    else if vt = VT_R4 then do let r ← read_fltVal slot; liftConv (ext.fromR4 r)
    else if vt = VT_R8 then read_dblVal slot
    else if vt = VT_BSTR ∨ vt = VT_LPWSTR ∨ vt = VT_LPSTR then do
      let s ← Variant.get_string (.mk vt slot)
      variant_atoi ext.fromStr s
    else if vt = VT_UI1 then do let b ← read_bVal slot; liftConv (ext.fromUI1 b)
    else if vt = VT_UI2 then do let u ← read_uiVal slot; liftConv (ext.fromUI2 u)
    else if vt = VT_UI4 ∨ vt = VT_UINT then do let u ← read_ulVal slot; liftConv (ext.fromUI4 u)
    else if vt = VT_UI8 then do let u ← read_ullVal slot; liftConv (ext.fromUI8 u)
    else .error (.typeErr "Error Variant Type")

/-- `TryInto<u8>` (source lines 993-1021). -/
def Variant.try_into_u8 (ext : ConvExt) : Variant → Except VErr Int
  | .mk vt slot =>
    if vt = VT_BOOL then do let b ← read_iVal slot; liftConv (ext.fromBool b)
    else if vt = VT_CY then do let c ← read_llVal slot; liftConv (ext.fromCy c)
    else if vt = VT_DATE then do let d ← read_dblVal slot; liftConv (ext.fromDate d)
    else if vt = VT_DECIMAL then do let d ← read_decVal slot; liftConv (ext.fromDec d)
    else if vt = VT_DISPATCH then dispatch_as_type ext.fromDisp slot
    else if vt = VT_I1 then do let c ← read_cVal slot; liftConv (ext.fromI1 c)
    else if vt = VT_I2 then do let i ← read_iVal slot; liftConv (ext.fromI2 i)
    else if vt = VT_I4 ∨ vt = VT_INT then do let l ← read_lVal slot; liftConv (ext.fromI4 l)
    else if vt = VT_I8 then do let l ← read_llVal slot; liftConv (ext.fromI8 l)
    else if vt = VT_R4 then do let r ← read_fltVal slot; liftConv (ext.fromR4 r)
    else if vt = VT_R8 then do let r ← read_dblVal slot; liftConv (ext.fromR8 r)
    else if vt = VT_BSTR ∨ vt = VT_LPWSTR ∨ vt = VT_LPSTR then do
      let s ← Variant.get_string (.mk vt slot)
      variant_atoi ext.fromStr s
    else if vt = VT_UI1 then read_bVal slot
    else if vt = VT_UI2 then do let u ← read_uiVal slot; liftConv (ext.fromUI2 u)
    else if vt = VT_UI4 ∨ vt = VT_UINT then do let u ← read_ulVal slot; liftConv (ext.fromUI4 u)
    else if vt = VT_UI8 then do let u ← read_ullVal slot; liftConv (ext.fromUI8 u)
    else .error (.typeErr "Error Variant Type")

/-- `TryInto<u16>` (source lines 1037-1065).  `VT_R8` goes through
`variant_as_type!`. -/
def Variant.try_into_u16 (ext : ConvExt) : Variant → Except VErr Int
  | .mk vt slot =>
    if vt = VT_BOOL then do let b ← read_iVal slot; liftConv (ext.fromBool b)
    else if vt = VT_CY then do let c ← read_llVal slot; liftConv (ext.fromCy c)
    else if vt = VT_DATE then do let d ← read_dblVal slot; liftConv (ext.fromDate d)
    else if vt = VT_DECIMAL then do let d ← read_decVal slot; liftConv (ext.fromDec d)
    else if vt = VT_DISPATCH then dispatch_as_type ext.fromDisp slot
    else if vt = VT_I1 then do let c ← read_cVal slot; liftConv (ext.fromI1 c)
    else if vt = VT_I2 then do let i ← read_iVal slot; liftConv (ext.fromI2 i)
    else if vt = VT_I4 ∨ vt = VT_INT then do let l ← read_lVal slot; liftConv (ext.fromI4 l)
    else if vt = VT_I8 then do let l ← read_llVal slot; liftConv (ext.fromI8 l)
    else if vt = VT_R4 then do let r ← read_fltVal slot; liftConv (ext.fromR4 r)
    else if vt = VT_R8 then do let r ← read_dblVal slot; variant_as_type (ext.fromR8 r)
    else if vt = VT_BSTR ∨ vt = VT_LPWSTR ∨ vt = VT_LPSTR then do
      let s ← Variant.get_string (.mk vt slot)
      variant_atoi ext.fromStr s
    else if vt = VT_UI1 then do let b ← read_bVal slot; liftConv (ext.fromUI1 b)
    else if vt = VT_UI2 then read_uiVal slot
    else if vt = VT_UI4 ∨ vt = VT_UINT then do let u ← read_ulVal slot; liftConv (ext.fromUI4 u)
    else if vt = VT_UI8 then do let u ← read_ullVal slot; liftConv (ext.fromUI8 u)
    else .error (.typeErr "Error Variant Type")

/-- `TryInto<u32>` (source lines 1081-1109). -/
def Variant.try_into_u32 (ext : ConvExt) : Variant → Except VErr Int
  | .mk vt slot =>
    if vt = VT_BOOL then do let b ← read_iVal slot; liftConv (ext.fromBool b)
    else if vt = VT_CY then do let c ← read_llVal slot; liftConv (ext.fromCy c)
    else if vt = VT_DATE then do let d ← read_dblVal slot; liftConv (ext.fromDate d)
    else if vt = VT_DECIMAL then do let d ← read_decVal slot; liftConv (ext.fromDec d)
    else if vt = VT_DISPATCH then dispatch_as_type ext.fromDisp slot
    else if vt = VT_I1 then do let c ← read_cVal slot; liftConv (ext.fromI1 c)
    else if vt = VT_I2 then do let i ← read_iVal slot; liftConv (ext.fromI2 i)
    else if vt = VT_I4 ∨ vt = VT_INT then do let l ← read_lVal slot; liftConv (ext.fromI4 l)
    else if vt = VT_I8 then do let l ← read_llVal slot; liftConv (ext.fromI8 l)
    else if vt = VT_R4 then do let r ← read_fltVal slot; liftConv (ext.fromR4 r)
    else if vt = VT_R8 then do let r ← read_dblVal slot; liftConv (ext.fromR8 r)
    else if vt = VT_BSTR ∨ vt = VT_LPWSTR ∨ vt = VT_LPSTR then do
      let s ← Variant.get_string (.mk vt slot)
      variant_atoi ext.fromStr s
    else if vt = VT_UI1 then do let b ← read_bVal slot; liftConv (ext.fromUI1 b)
    else if vt = VT_UI2 then do let u ← read_uiVal slot; liftConv (ext.fromUI2 u)
    else if vt = VT_UI4 ∨ vt = VT_UINT then read_ulVal slot
    else if vt = VT_UI8 then do let u ← read_ullVal slot; liftConv (ext.fromUI8 u)
    else .error (.typeErr "Error Variant Type")

/-- `TryInto<u64>` (source lines 1125-1153).  `VT_I4 | VT_INT` is a wrapping
cast `lVal as u64` with no external call. -/
def Variant.try_into_u64 (ext : ConvExt) : Variant → Except VErr Int
  | .mk vt slot =>
    if vt = VT_BOOL then do let b ← read_iVal slot; liftConv (ext.fromBool b)
    else if vt = VT_CY then do let c ← read_llVal slot; liftConv (ext.fromCy c)
    else if vt = VT_DATE then do let d ← read_dblVal slot; liftConv (ext.fromDate d)
    else if vt = VT_DECIMAL then do let d ← read_decVal slot; liftConv (ext.fromDec d)
    else if vt = VT_DISPATCH then dispatch_as_type ext.fromDisp slot
    else if vt = VT_I1 then do let c ← read_cVal slot; liftConv (ext.fromI1 c)
    else if vt = VT_I2 then do let i ← read_iVal slot; liftConv (ext.fromI2 i)
    else if vt = VT_I4 ∨ vt = VT_INT then do let l ← read_lVal slot; .ok (u64_of_i32 l)
    else if vt = VT_I8 then do let l ← read_llVal slot; liftConv (ext.fromI8 l)
    else if vt = VT_R4 then do let r ← read_fltVal slot; liftConv (ext.fromR4 r)
    else if vt = VT_R8 then do let r ← read_dblVal slot; liftConv (ext.fromR8 r)
    else if vt = VT_BSTR ∨ vt = VT_LPWSTR ∨ vt = VT_LPSTR then do
      let s ← Variant.get_string (.mk vt slot)
      variant_atoi ext.fromStr s
    else if vt = VT_UI1 then do let b ← read_bVal slot; liftConv (ext.fromUI1 b)
    else if vt = VT_UI2 then do let u ← read_uiVal slot; liftConv (ext.fromUI2 u)
    else if vt = VT_UI4 ∨ vt = VT_UINT then do let u ← read_ulVal slot; liftConv (ext.fromUI4 u)
    else if vt = VT_UI8 then read_ullVal slot
    else .error (.typeErr "Error Variant Type")

/-! ## `impl Display for Value` (source lines 61-93)

`Display` formatting of the nested `VARIANT` and of array payloads recurses
into the `Display` of `Variant` and `SafeArray`, and the float payloads use
the platform float formatter; those three are external to this definition and
supplied through `FmtExt` (the nested Display can fail, propagating
`fmt::Error`, modelled as `Except Unit`). -/

/-- External pieces used by `Display for Value`: the platform float
formatters and the nested `Variant` / `SafeArray` Display implementations. -/
structure FmtExt where
  fmtF32 : Int → String
  fmtF64 : Int → String
  showVariant : Variant → Except Unit String
  showArray : SafeArray → Except Unit String

/-- `Display for Value`: the fixed textual form per tag.  Faithful quirks of
the source, kept deliberately: `UINT` renders with the tag text `UNIT`
(source line 76) and `CURRENCY` with the tag text `CY` (line 79);
`UNKNOWN`, `DISPATCH` and `DECIMAL` render as bare placeholders without
payload. -/
def Value.display (ext : FmtExt) : Value → Except Unit String
  | .EMPTY => .ok "EMPTY"
  | .NULL => .ok "NULL"
  | .VOID => .ok "VOID"
  | .I1 v => .ok ("I1(" ++ toString v ++ ")")
  | .I2 v => .ok ("I2(" ++ toString v ++ ")")
  | .I4 v => .ok ("I4(" ++ toString v ++ ")")
  | .I8 v => .ok ("I8(" ++ toString v ++ ")")
  | .INT v => .ok ("INT(" ++ toString v ++ ")")
  | .UI1 v => .ok ("UI1(" ++ toString v ++ ")")
  | .UI2 v => .ok ("UI2(" ++ toString v ++ ")")
  | .UI4 v => .ok ("UI4(" ++ toString v ++ ")")
  | .UI8 v => .ok ("UI8(" ++ toString v ++ ")")
  | .UINT v => .ok ("UNIT(" ++ toString v ++ ")")
  | .R4 v => .ok ("R4(" ++ ext.fmtF32 v ++ ")")
  | .R8 v => .ok ("R8(" ++ ext.fmtF64 v ++ ")")
  | .CURRENCY v => .ok ("CY(" ++ toString v ++ ")")
  | .DATE v => .ok ("DATE(" ++ ext.fmtF64 v ++ ")")
  | .STRING s => .ok ("STRING(" ++ s ++ ")")
  | .UNKNOWN _ => .ok "UNKNOWN"
  | .DISPATCH _ => .ok "DISPATCH"
  | .ERROR h => .ok ("ERROR(" ++ toString h ++ ")")
  | .HRESULT h => .ok ("HRESULT(" ++ toString h ++ ")")
  | .BOOL b => .ok ("BOOL(" ++ (if b then "true" else "false") ++ ")")
  | .VARIANT v => do
    let s ← ext.showVariant v
    .ok ("VARIANT(" ++ s ++ ")")
  | .DECIMAL _ => .ok "DECIMAL"
  | .SAFEARRAY a => do
    let s ← ext.showArray a
    .ok ("SAFEARRAY(" ++ s ++ ")")
  | .ARRAY a => do
    let s ← ext.showArray a
    .ok ("ARRAY(" ++ s ++ ")")

/-! ## The external SAFEARRAY heap

Modelled from the spec: the array primitives (creation, element get and put,
bounds, dimension and type queries, copy) are each one external call against
an externally allocated buffer (section 6); buffers created by the vector
constructor are single-dimension with lower bound 0 (section 3 and 4.6).
The heap is a list of buffer descriptors; a handle is an index into it, and
a fresh allocation appends, so fresh handles never collide with live ones.
Allocation failure of the foreign allocator is not modelled (allocation
always succeeds). -/

/-- An external array buffer descriptor: element type tag, lower bound,
elements in index order, dimension count. -/
structure ArrayBuf where
  vt : Int
  lb : Int
  elems : List Int
  dims : Nat
  deriving DecidableEq

/-- The external array heap. -/
abbrev Heap := List ArrayBuf

/-- Dereference a raw handle: `none` is a null pointer, a stale index is a
dangling handle. -/
def heapAt (heap : Heap) (a : Option Nat) : Option ArrayBuf :=
  match a with
  | some hd => heap.get? hd
  | none => none

/-- Modelled from the spec: `SafeArrayCreateVector(vt, lower, len)` allocates
a fresh single-dimension buffer with the given lower bound and `len`
zero-initialised elements and returns its (non-null) handle. -/
def safeArrayCreateVector (vt : Int) (lb : Int) (len : Nat) (heap : Heap) :
    Heap × Option Nat :=
  (heap ++ [⟨vt, lb, List.replicate len 0, 1⟩], some heap.length)

/-- Modelled from the spec: `SafeArrayGetVartype` queries the element type
tag; a null or dangling handle fails with a foreign status code. -/
def safeArrayGetVartype (heap : Heap) (a : Option Nat) : Except VErr Int :=
  match heapAt heap a with
  | some buf => .ok buf.vt
  | none => .error (.extErr E_INVALIDARG)

/-- Modelled from the spec: `SafeArrayGetDim` returns the dimension count
directly (no failure channel); a null or dangling handle reads as 0. -/
def safeArrayGetDim (heap : Heap) (a : Option Nat) : Nat :=
  match heapAt heap a with
  | some buf => buf.dims
  | none => 0

/-- Modelled from the spec: `SafeArrayGetLBound(dim)`, 1-indexed dimension. -/
def safeArrayGetLBound (heap : Heap) (a : Option Nat) (dim : Nat) : Except VErr Int :=
  match heapAt heap a with
  | some buf =>
    if 1 ≤ dim ∧ dim ≤ buf.dims then .ok buf.lb
    else .error (.extErr DISP_E_BADINDEX)
  | none => .error (.extErr E_INVALIDARG)

/-- Modelled from the spec: `SafeArrayGetUBound(dim)`: the inclusive upper
bound, `lb + len - 1`. -/
def safeArrayGetUBound (heap : Heap) (a : Option Nat) (dim : Nat) : Except VErr Int :=
  match heapAt heap a with
  | some buf =>
    if 1 ≤ dim ∧ dim ≤ buf.dims then .ok (buf.lb + buf.elems.length - 1)
    else .error (.extErr DISP_E_BADINDEX)
  | none => .error (.extErr E_INVALIDARG)

/-- Modelled from the spec: `SafeArrayGetElement` with a single index; the
external primitive itself validates the index against the bounds
(section 4.5: no independent pre-check in this layer). -/
def safeArrayGetElement (heap : Heap) (a : Option Nat) (idx : Int) : Except VErr Int :=
  match heapAt heap a with
  | some buf =>
    let off := idx - buf.lb
    if 0 ≤ off ∧ off < (buf.elems.length : Int) then .ok (buf.elems.getD off.toNat 0)
    else .error (.extErr DISP_E_BADINDEX)
  | none => .error (.extErr E_INVALIDARG)

/-- Modelled from the spec: `SafeArrayPutElement` with a single index. -/
def safeArrayPutElement (heap : Heap) (a : Option Nat) (idx : Int) (v : Int) :
    Except VErr Heap :=
  match a with
  | some hd =>
    match heap.get? hd with
    | some buf =>
      let off := idx - buf.lb
      if 0 ≤ off ∧ off < (buf.elems.length : Int) then
        .ok (heap.set hd { buf with elems := buf.elems.set off.toNat v })
      else .error (.extErr DISP_E_BADINDEX)
    | none => .error (.extErr E_INVALIDARG)
  | none => .error (.extErr E_INVALIDARG)

/-- Modelled from the spec: `SafeArrayCopy` deep-copies the buffer into a
fresh allocation and returns the new handle (the source unwraps the call, so
failure is not modelled). -/
def safeArrayCopy (heap : Heap) (hd : Nat) : Heap × Nat :=
  (heap ++ [heap.getD hd ⟨0, 0, [], 1⟩], heap.length)

/-! ## `SafeArray` methods (source lines 1170-1326, 1383-1398) -/

/-- `SafeArray::new(array, owned)`. -/
def SafeArray.new (array : Option Nat) (owned : Bool) : SafeArray :=
  ⟨array, owned⟩

/-- `SafeArray::new_vector(var_type, len)` (source lines 1182-1194): create
via the external vector constructor, fail with `NullPointer` on a null
result, own the buffer otherwise. -/
def SafeArray.new_vector (var_type : Int) (len : Nat) (heap : Heap) :
    Except VErr (Heap × SafeArray) :=
  let (heap2, array) := safeArrayCreateVector var_type 0 len heap
  if array.isNone then .error (.nullPtr "Create SafeArray Failed")
  else .ok (heap2, ⟨array, true⟩)

/-- `SafeArray::get_var_type()`. -/
def SafeArray.get_var_type (s : SafeArray) (heap : Heap) : Except VErr Int :=
  safeArrayGetVartype heap s.array

/-- `SafeArray::get_dim()`. -/
def SafeArray.get_dim (s : SafeArray) (heap : Heap) : Nat :=
  safeArrayGetDim heap s.array

/-- `SafeArray::get_lower_bound(dimension)`. -/
def SafeArray.get_lower_bound (s : SafeArray) (heap : Heap) (dimension : Nat) :
    Except VErr Int :=
  safeArrayGetLBound heap s.array dimension

/-- `SafeArray::get_upper_bound(dimension)`. -/
def SafeArray.get_upper_bound (s : SafeArray) (heap : Heap) (dimension : Nat) :
    Except VErr Int :=
  safeArrayGetUBound heap s.array dimension

/-- `SafeArray::get_element(index)`. -/
def SafeArray.get_element (s : SafeArray) (heap : Heap) (index : Int) :
    Except VErr Int :=
  safeArrayGetElement heap s.array index

/-- `SafeArray::put_element(index, value)`. -/
def SafeArray.put_element (s : SafeArray) (heap : Heap) (index : Int) (value : Int) :
    Except VErr Heap :=
  safeArrayPutElement heap s.array index value

/-- The read loop of `into_vector` (source lines 1273-1277): `for i in
lower..=upper { arr.push(get_element(i)?) }`, with the iteration count
`(upper - lower + 1).toNat` (zero when the range is empty). -/
def safe_array_read_loop (heap : Heap) (a : Option Nat) (i : Int) :
    Nat → Except VErr (List Int)
  | 0 => .ok []
  | n + 1 => do
    let v ← safeArrayGetElement heap a i
    let rest ← safe_array_read_loop heap a (i + 1) n
    .ok (v :: rest)

/-- `SafeArray::into_vector(var_type)` (source lines 1261-1280): element tag
must match, dimension count must be 1, then read `lower..=upper` in index
order. -/
def SafeArray.into_vector (s : SafeArray) (heap : Heap) (var_type : Int) :
    Except VErr (List Int) := do
  let vt ← s.get_var_type heap
  if vt ≠ var_type then .error (.typeErr "Err SafeArray Type")
  else if s.get_dim heap ≠ 1 then .error (.typeErr "Err SafeArray Dimension Count")
  else do
    let lower ← s.get_lower_bound heap 1
    let upper ← s.get_upper_bound heap 1
    safe_array_read_loop heap s.array lower (upper - lower + 1).toNat

/-- The write loop of `from_vector` (source lines 1312-1318): write each
source element at its position via the external put primitive. -/
def safe_array_write_loop (a : Option Nat) :
    Heap → List Int → Int → Except VErr Heap
  | heap, [], _ => .ok heap
  | heap, v :: rest, i => do
    let heap2 ← safeArrayPutElement heap a i v
    safe_array_write_loop a heap2 rest (i + 1)

/-- `SafeArray::from_vector(var_type, src)` (source lines 1310-1320):
allocate an owned single-dimension array of the source length (lower bound
0), then write the elements by position. -/
def SafeArray.from_vector (var_type : Int) (src : List Int) (heap : Heap) :
    Except VErr (Heap × SafeArray) := do
  let (heap2, arr) ← SafeArray.new_vector var_type src.length heap
  let heap3 ← safe_array_write_loop arr.array heap2 src 0
  .ok (heap3, arr)

/-- `impl Clone for SafeArray` (source lines 1383-1398): an owned, non-null
handle is deep-copied through the external copy primitive; otherwise the raw
handle is copied as-is.  The clone inherits `self.owned`. -/
def SafeArray.clone (s : SafeArray) (heap : Heap) : Heap × SafeArray :=
  if s.owned && s.array.isSome then
    match s.array with
    | some hd =>
      let (heap2, h2) := safeArrayCopy heap hd
      (heap2, ⟨some h2, s.owned⟩)
    | none => (heap, ⟨none, s.owned⟩)
  else (heap, ⟨s.array, s.owned⟩)

/-! ## Scalar classification and payload well-formedness -/

/-- The `Value` variants whose payload is a plain scalar: each integer width,
each float width, boolean, string, currency, date. -/
def Value.is_scalar : Value → Bool
  | .I1 _ | .I2 _ | .I4 _ | .I8 _ | .INT _
  | .UI1 _ | .UI2 _ | .UI4 _ | .UI8 _ | .UINT _
  | .R4 _ | .R8 _ | .BOOL _ | .STRING _ | .CURRENCY _ | .DATE _ => true
  | _ => false

/-- Payload ranges guaranteed by the Rust types of the `Value` payloads
(`i8`, `i16`, ... carried as `Int` in the model). -/
def Value.wf : Value → Bool
  | .I1 v => -128 ≤ v && v < 128
  | .I2 v => -32768 ≤ v && v < 32768
  | .I4 v => -2147483648 ≤ v && v < 2147483648
  | .INT v => -2147483648 ≤ v && v < 2147483648
  | .I8 v => -9223372036854775808 ≤ v && v < 9223372036854775808
  | .UI1 v => 0 ≤ v && v < 256
  | .UI2 v => 0 ≤ v && v < 65536
  | .UI4 v => 0 ≤ v && v < 4294967296
  | .UINT v => 0 ≤ v && v < 4294967296
  | .UI8 v => 0 ≤ v && v < 18446744073709551616
  | .CURRENCY v => -9223372036854775808 ≤ v && v < 9223372036854775808
  | .ERROR v => -2147483648 ≤ v && v < 2147483648
  | .HRESULT v => -2147483648 ≤ v && v < 2147483648
  | _ => true

/-- The byte cast pair is the identity on the `i8` range. -/
theorem i8_u8_roundtrip (v : Int) (h1 : -128 ≤ v) (h2 : v < 128) :
    i8_of_u8 (u8_of_i8 v) = v := by
  unfold i8_of_u8 u8_of_i8
  split <;> omega

/-- C1: for every TaggedValue variant whose payload is a plain scalar (each
signed and unsigned integer width, each float width, boolean, string,
currency, date), converting into a Variant via `From<Value>` and decomposing
back via `get_value` / `try_into` yields exactly the original value. -/
theorem scalar_value_roundtrip (v : Value) (hs : v.is_scalar = true)
    (hw : v.wf = true) :
    (Variant.from_value v).get_value = .ok v := by
  cases v
  case I1 x =>
    have hx : -128 ≤ x ∧ x < 128 := by
      simpa [Value.wf, Bool.and_eq_true, decide_eq_true_eq] using hw
    have e1 : (Variant.from_value (Value.I1 x)).get_value
        = .ok (Value.I1 (i8_of_u8 (u8_of_i8 x))) := rfl
    rw [e1, i8_u8_roundtrip x hx.1 hx.2]
  case BOOL b => cases b <;> rfl
  all_goals first
    | rfl
    | simp [Value.is_scalar] at hs

/-- Witness for C1 at the concrete input `I1 (-5)`. -/
theorem scalar_value_roundtrip_w :
    (Value.I1 (-5)).is_scalar = true ∧ (Value.I1 (-5)).wf = true ∧
      (Variant.from_value (Value.I1 (-5))).get_value = .ok (Value.I1 (-5)) :=
  ⟨by decide, by decide, scalar_value_roundtrip (Value.I1 (-5)) (by decide) (by decide)⟩

/-- C2: building a SafeArray from the i8 vector `[1, 2, 3]` via `from_vector`
(on an empty external heap) and reading it back via `into_vector` yields
exactly `[1, 2, 3]`; on the constructed array `get_dim` is 1,
`get_lower_bound(1)` is `Ok 0` and `get_upper_bound(1)` is `Ok 2`. -/
theorem safearray_i1_roundtrip :
    SafeArray.from_vector VT_I1 [1, 2, 3] []
      = .ok ([⟨VT_I1, 0, [1, 2, 3], 1⟩], ⟨some 0, true⟩)
    ∧ SafeArray.into_vector ⟨some 0, true⟩ [⟨VT_I1, 0, [1, 2, 3], 1⟩] VT_I1
      = .ok [1, 2, 3]
    ∧ SafeArray.get_dim ⟨some 0, true⟩ [⟨VT_I1, 0, [1, 2, 3], 1⟩] = 1
    ∧ SafeArray.get_lower_bound ⟨some 0, true⟩ [⟨VT_I1, 0, [1, 2, 3], 1⟩] 1 = .ok 0
    ∧ SafeArray.get_upper_bound ⟨some 0, true⟩ [⟨VT_I1, 0, [1, 2, 3], 1⟩] 1 = .ok 2 :=
  ⟨rfl, rfl, rfl, rfl, rfl⟩

/-- C6: for all 27 `Value` variants converted to a Variant, `is_null` is true
exactly when the variant is `EMPTY`, `NULL` or `VOID`. -/
theorem is_null_iff_null_family (v : Value) :
    (Variant.from_value v).is_null
      = (match v with
         | .EMPTY | .NULL | .VOID => true
         | _ => false) := by
  cases v <;> rfl

/-- Stepping lemma for the tag dispatch chain: an if-expression differs from
a given ok-result when both branches do. -/
theorem ite_ne_ok {c : Prop} [Decidable c] {a b : Except VErr Value} {w : Value}
    (ha : a ≠ .ok w) (hb : b ≠ .ok w) : (if c then a else b) ≠ .ok w := by
  split
  · exact ha
  · exact hb

/-- No result of the tag dispatch is `Value.ERROR` or `Value.ARRAY`: the
`VT_ERROR` branch builds `Value.HRESULT` and both array tags build
`Value.SAFEARRAY`. -/
theorem try_into_value_result_shape (vt : Int) (slot : Slot) (h : Int)
    (arr : SafeArray) :
    Variant.try_into_value (.mk vt slot) ≠ .ok (Value.ERROR h)
    ∧ Variant.try_into_value (.mk vt slot) ≠ .ok (Value.ARRAY arr) := by
  constructor <;>
    (simp only [Variant.try_into_value]
     repeat' apply ite_ne_ok
     all_goals
       first
         | (simp
            done)
         | (cases read_bVal slot <;> simp [Except.bind, Bind.bind, Except.instMonad] <;> done)
         | (cases read_iVal slot <;> simp [Except.bind, Bind.bind, Except.instMonad] <;> done)
         | (cases read_lVal slot <;> simp [Except.bind, Bind.bind, Except.instMonad] <;> done)
         | (cases read_llVal slot <;> simp [Except.bind, Bind.bind, Except.instMonad] <;> done)
         | (cases read_uiVal slot <;> simp [Except.bind, Bind.bind, Except.instMonad] <;> done)
         | (cases read_ulVal slot <;> simp [Except.bind, Bind.bind, Except.instMonad] <;> done)
         | (cases read_ullVal slot <;> simp [Except.bind, Bind.bind, Except.instMonad] <;> done)
         | (cases read_fltVal slot <;> simp [Except.bind, Bind.bind, Except.instMonad] <;> done)
         | (cases read_dblVal slot <;> simp [Except.bind, Bind.bind, Except.instMonad] <;> done)
         | (cases read_bstrVal slot <;> simp [Except.bind, Bind.bind, Except.instMonad] <;> done)
         | (cases read_pcVal slot <;> simp [Except.bind, Bind.bind, Except.instMonad] <;> done)
         | (cases read_varVal slot <;> simp [Except.bind, Bind.bind, Except.instMonad] <;> done)
         | (cases read_decVal slot <;> simp [Except.bind, Bind.bind, Except.instMonad] <;> done)
         | (cases read_parray slot <;> simp [Except.bind, Bind.bind, Except.instMonad] <;> done))

/-- C8: converting `Value.ARRAY a` produces the very same Variant (tag
`VT_SAFEARRAY` and payload) as converting `Value.SAFEARRAY a`; decomposing a
Variant built from `Value.ARRAY` always yields `Value.SAFEARRAY` with a
borrowed handle; and no Variant whatsoever decomposes to `Value.ARRAY`. -/
theorem array_tag_collapses_to_safearray :
    (∀ a : SafeArray,
        Variant.from_value (Value.ARRAY a) = Variant.from_value (Value.SAFEARRAY a))
    ∧ (∀ a : SafeArray,
        (Variant.from_value (Value.ARRAY a)).get_value
          = .ok (Value.SAFEARRAY ⟨a.array, false⟩))
    ∧ (∀ (var : Variant) (a : SafeArray), var.get_value ≠ .ok (Value.ARRAY a)) := by
  refine ⟨fun a => rfl, fun a => rfl, ?_⟩
  intro var a
  obtain ⟨vt, slot⟩ := var
  exact (try_into_value_result_shape vt slot 0 a).2

/-- C10: a Variant with the error-code tag decomposes to `Value.HRESULT`
carrying the stored code, never `Value.ERROR`: a Variant built from
`Value.ERROR h` decomposes to `Value.HRESULT h`, and no Variant whatsoever
decomposes to `Value.ERROR`. -/
theorem vt_error_decodes_to_hresult :
    (∀ h : Int,
        (Variant.from_value (Value.ERROR h)).get_value = .ok (Value.HRESULT h))
    ∧ (∀ (var : Variant) (h : Int), var.get_value ≠ .ok (Value.ERROR h)) := by
  refine ⟨fun h => rfl, ?_⟩
  intro var h
  obtain ⟨vt, slot⟩ := var
  exact (try_into_value_result_shape vt slot h ⟨none, false⟩).1

/-! ## C3: the i8 coercion and the null out-pointer -/

/-- The source tags of the claim: every numeric source tag other than the i8
self-tag (boolean, currency, date, decimal, the other integer widths, both
float widths). -/
def i1SourceTags : List Int :=
  [VT_BOOL, VT_CY, VT_DATE, VT_DECIMAL, VT_I2, VT_I4, VT_INT, VT_I8,
   VT_R4, VT_R8, VT_UI1, VT_UI2, VT_UI4, VT_UINT, VT_UI8]

/-- `variant_as_i1!` can never deliver a result: on external success it
faults writing through the null pointer, on external failure it propagates
the failure. -/
theorem variant_as_i1_not_ok (c : Except Int Int) (r : Int) :
    variant_as_i1 c ≠ .ok r := by
  cases c <;> simp [variant_as_i1, varOutWrite, readOutPtr, Except.bind,
    Bind.bind, Except.instMonad]

/-- A union read followed by `variant_as_i1!` can never deliver a result. -/
theorem bind_as_i1_not_ok {α : Type} (e : Except VErr α)
    (f : α → Except Int Int) (r : Int) :
    (e.bind fun x => variant_as_i1 (f x)) ≠ .ok r := by
  cases e with
  | error err => simp [Except.bind]
  | ok x => simpa [Except.bind] using variant_as_i1_not_ok (f x) r

/-- C3 (refuting theorem): for every Variant whose tag is a numeric source
tag other than the i8 self-tag, `TryInto<i8>` never returns a value at all —
the claimed result of the external VarI1From* routine included — because the
source passes `PSTR::null()` as the out-pointer and then dereferences it,
for every possible external conversion semantics. -/
theorem try_into_i8_never_delivers (ext : ConvExt) (vt : Int) (slot : Slot)
    (r : Int) (h : vt ∈ i1SourceTags) :
    Variant.try_into_i8 ext (.mk vt slot) ≠ .ok r := by
  simp only [i1SourceTags, List.mem_cons, List.not_mem_nil, or_false] at h
  rcases h with rfl | rfl | rfl | rfl | rfl | rfl | rfl | rfl | rfl | rfl |
    rfl | rfl | rfl | rfl | rfl
  case inl => exact bind_as_i1_not_ok (read_iVal slot) (fun b => ext.fromBool b) r
  all_goals first
    | exact bind_as_i1_not_ok (read_llVal slot) (fun c => ext.fromCy c) r
    | exact bind_as_i1_not_ok (read_dblVal slot) (fun d => ext.fromDate d) r
    | exact bind_as_i1_not_ok (read_decVal slot) (fun d => ext.fromDec d) r
    | exact bind_as_i1_not_ok (read_iVal slot) (fun i => ext.fromI2 i) r
    | exact bind_as_i1_not_ok (read_lVal slot) (fun l => ext.fromI4 l) r
    | exact bind_as_i1_not_ok (read_llVal slot) (fun l => ext.fromI8 l) r
    | exact bind_as_i1_not_ok (read_fltVal slot) (fun x => ext.fromR4 x) r
    | exact bind_as_i1_not_ok (read_dblVal slot) (fun x => ext.fromR8 x) r
    | exact bind_as_i1_not_ok (read_bVal slot) (fun b => ext.fromUI1 b) r
    | exact bind_as_i1_not_ok (read_uiVal slot) (fun u => ext.fromUI2 u) r
    | exact bind_as_i1_not_ok (read_ulVal slot) (fun u => ext.fromUI4 u) r
    | exact bind_as_i1_not_ok (read_ullVal slot) (fun u => ext.fromUI8 u) r

/-- A sample external conversion semantics (every routine succeeds and
returns 7), used to evaluate the coercions at concrete inputs. -/
def convExt0 : ConvExt where
  fromBool := fun _ => .ok 7
  fromCy := fun _ => .ok 7
  fromDate := fun _ => .ok 7
  fromDec := fun _ => .ok 7
  fromDisp := fun _ => .ok 7
  fromI1 := fun _ => .ok 7
  fromI2 := fun _ => .ok 7
  fromI4 := fun _ => .ok 7
  fromI8 := fun _ => .ok 7
  fromR4 := fun _ => .ok 7
  fromR8 := fun _ => .ok 7
  fromStr := fun _ => .ok 7
  fromUI1 := fun _ => .ok 7
  fromUI2 := fun _ => .ok 7
  fromUI4 := fun _ => .ok 7
  fromUI8 := fun _ => .ok 7

/-- Witness for C3 at the concrete failing input: a `VT_I2` Variant holding
5, with an external semantics whose `VarI1FromI2` returns 7 — the coercion
faults (`VErr.ub`) instead of returning 7. -/
theorem try_into_i8_never_delivers_w :
    VT_I2 ∈ i1SourceTags ∧ convExt0.fromI2 5 = .ok 7 ∧
      Variant.try_into_i8 convExt0 (.mk VT_I2 (.iVal 5)) ≠ .ok 7 :=
  ⟨by decide, rfl,
    try_into_i8_never_delivers convExt0 VT_I2 (.iVal 5) 7 (by decide)⟩

/-- Evaluation at the C3 failing input: the i8 coercion of a `VT_I2` Variant
ends in the null-pointer fault. -/
theorem try_into_i8_i2_faults :
    Variant.try_into_i8 convExt0 (.mk VT_I2 (.iVal 5)) = .error .ub := rfl

/-! ## C4: `get_string` and the three string tags -/

/-- C4 (refuting theorem, evaluated at the failing input): a `VT_LPWSTR`
Variant satisfies `is_string`, yet `get_string` fails with `TypeError`
(and so does every string-based numeric coercion sourced from it), because
the tag dispatch of `get_value` recognises `VT_BSTR` and `VT_LPSTR` but
never `VT_LPWSTR`; a `VT_BSTR` Variant is returned fine. -/
theorem lpwstr_get_string_fails :
    Variant.is_string (.mk VT_LPWSTR (.strVal (.wide "1"))) = true
    ∧ Variant.get_string (.mk VT_LPWSTR (.strVal (.wide "1")))
        = .error (.typeErr "")
    ∧ Variant.try_into_i16 convExt0 (.mk VT_LPWSTR (.strVal (.wide "1")))
        = .error (.typeErr "")
    ∧ Variant.get_string (.mk VT_BSTR (.strVal (.wide "1"))) = .ok "1" :=
  ⟨rfl, rfl, rfl, rfl⟩

/-! ## C5: null dispatch handles and array tags under numeric coercion -/

/-- C5: coercing a dispatch-tagged Variant whose handle is null to any
numeric primitive returns that type zero value (false for bool) without
calling the external routine, for every external conversion semantics; and
coercing a `VT_SAFEARRAY`- or `VT_ARRAY`-tagged Variant to any numeric
primitive fails with `TypeError`, whatever the payload. -/
theorem null_dispatch_zero_array_type_error (ext : ConvExt) (slot : Slot) :
    (Variant.try_into_bool ext (.mk VT_DISPATCH (.dispVal none)) = .ok false
     ∧ Variant.try_into_i8 ext (.mk VT_DISPATCH (.dispVal none)) = .ok 0
     ∧ Variant.try_into_i16 ext (.mk VT_DISPATCH (.dispVal none)) = .ok 0
     ∧ Variant.try_into_i32 ext (.mk VT_DISPATCH (.dispVal none)) = .ok 0
     ∧ Variant.try_into_i64 ext (.mk VT_DISPATCH (.dispVal none)) = .ok 0
     ∧ Variant.try_into_u8 ext (.mk VT_DISPATCH (.dispVal none)) = .ok 0
     ∧ Variant.try_into_u16 ext (.mk VT_DISPATCH (.dispVal none)) = .ok 0
     ∧ Variant.try_into_u32 ext (.mk VT_DISPATCH (.dispVal none)) = .ok 0
     ∧ Variant.try_into_u64 ext (.mk VT_DISPATCH (.dispVal none)) = .ok 0
     ∧ Variant.try_into_f32 ext (.mk VT_DISPATCH (.dispVal none)) = .ok 0
     ∧ Variant.try_into_f64 ext (.mk VT_DISPATCH (.dispVal none)) = .ok 0)
    ∧ (Variant.try_into_bool ext (.mk VT_SAFEARRAY slot)
         = .error (.typeErr "Error Variant Type")
     ∧ Variant.try_into_i8 ext (.mk VT_SAFEARRAY slot)
         = .error (.typeErr "Error Variant Type")
     ∧ Variant.try_into_i16 ext (.mk VT_SAFEARRAY slot)
         = .error (.typeErr "Error Variant Type")
     ∧ Variant.try_into_i32 ext (.mk VT_SAFEARRAY slot)
         = .error (.typeErr "Error Variant Type")
     ∧ Variant.try_into_i64 ext (.mk VT_SAFEARRAY slot)
         = .error (.typeErr "Error Variant Type")
     ∧ Variant.try_into_u8 ext (.mk VT_SAFEARRAY slot)
         = .error (.typeErr "Error Variant Type")
     ∧ Variant.try_into_u16 ext (.mk VT_SAFEARRAY slot)
         = .error (.typeErr "Error Variant Type")
     ∧ Variant.try_into_u32 ext (.mk VT_SAFEARRAY slot)
         = .error (.typeErr "Error Variant Type")
     ∧ Variant.try_into_u64 ext (.mk VT_SAFEARRAY slot)
         = .error (.typeErr "Error Variant Type")
     ∧ Variant.try_into_f32 ext (.mk VT_SAFEARRAY slot)
         = .error (.typeErr "Error Variant Type")
     ∧ Variant.try_into_f64 ext (.mk VT_SAFEARRAY slot)
         = .error (.typeErr "Error Variant Type"))
    ∧ (Variant.try_into_bool ext (.mk VT_ARRAY slot)
         = .error (.typeErr "Error Variant Type")
     ∧ Variant.try_into_i8 ext (.mk VT_ARRAY slot)
         = .error (.typeErr "Error Variant Type")
     ∧ Variant.try_into_i16 ext (.mk VT_ARRAY slot)
         = .error (.typeErr "Error Variant Type")
     ∧ Variant.try_into_i32 ext (.mk VT_ARRAY slot)
         = .error (.typeErr "Error Variant Type")
     ∧ Variant.try_into_i64 ext (.mk VT_ARRAY slot)
         = .error (.typeErr "Error Variant Type")
     ∧ Variant.try_into_u8 ext (.mk VT_ARRAY slot)
         = .error (.typeErr "Error Variant Type")
     ∧ Variant.try_into_u16 ext (.mk VT_ARRAY slot)
         = .error (.typeErr "Error Variant Type")
     ∧ Variant.try_into_u32 ext (.mk VT_ARRAY slot)
         = .error (.typeErr "Error Variant Type")
     ∧ Variant.try_into_u64 ext (.mk VT_ARRAY slot)
         = .error (.typeErr "Error Variant Type")
     ∧ Variant.try_into_f32 ext (.mk VT_ARRAY slot)
         = .error (.typeErr "Error Variant Type")
     ∧ Variant.try_into_f64 ext (.mk VT_ARRAY slot)
         = .error (.typeErr "Error Variant Type")) :=
  ⟨⟨rfl, rfl, rfl, rfl, rfl, rfl, rfl, rfl, rfl, rfl, rfl⟩,
   ⟨rfl, rfl, rfl, rfl, rfl, rfl, rfl, rfl, rfl, rfl, rfl⟩,
   ⟨rfl, rfl, rfl, rfl, rfl, rfl, rfl, rfl, rfl, rfl, rfl⟩⟩

/-! ## C7: SafeArray clone and ownership -/

/-- C7: cloning an owned SafeArray with a valid non-null handle deep-copies
the buffer through the external copy primitive into a fresh handle, so the
buffer address differs from the source while the content is the copied
buffer; cloning a borrowed SafeArray keeps the identical handle, keeps
`owned = false`, and does not touch the heap (no allocation). -/
theorem safearray_clone_ownership (heap : Heap) (hd : Nat) (a : Option Nat)
    (hvalid : hd < heap.length) :
    SafeArray.clone ⟨some hd, true⟩ heap
        = (heap ++ [heap.getD hd ⟨0, 0, [], 1⟩], ⟨some heap.length, true⟩)
    ∧ some heap.length ≠ some hd
    ∧ SafeArray.clone ⟨a, false⟩ heap = (heap, ⟨a, false⟩) := by
  refine ⟨rfl, ?_, rfl⟩
  simp only [ne_eq, Option.some.injEq]
  omega

/-- Witness for C7 on a one-buffer heap. -/
theorem safearray_clone_ownership_w :
    (0 : Nat) < ([⟨VT_I1, 0, [5], 1⟩] : Heap).length ∧
      SafeArray.clone ⟨some 0, true⟩ [⟨VT_I1, 0, [5], 1⟩]
          = ([⟨VT_I1, 0, [5], 1⟩, ⟨VT_I1, 0, [5], 1⟩], ⟨some 1, true⟩)
      ∧ some 1 ≠ some 0
      ∧ SafeArray.clone ⟨some 0, false⟩ [⟨VT_I1, 0, [5], 1⟩]
          = ([⟨VT_I1, 0, [5], 1⟩], ⟨some 0, false⟩) :=
  ⟨by decide, safearray_clone_ownership [⟨VT_I1, 0, [5], 1⟩] 0 (some 0) (by decide)⟩

/-! ## C9: Display of scalar values -/

/-- A sample `FmtExt` (the UINT evaluation below does not involve floats or
nested payloads). -/
def fmtExt0 : FmtExt where
  fmtF32 := fun _ => ""
  fmtF64 := fun _ => ""
  showVariant := fun _ => .ok ""
  showArray := fun _ => .ok ""

/-- C9 (refuting theorem, evaluated at the failing input): `Display` of
`Value.UINT 5` renders `UNIT(5)` — a transposition of the variant name — not
`UINT(5)` as the claim states; the other integer variants do render under
their own names, and `CURRENCY` renders under the `CY` tag text. -/
theorem display_uint_typo :
    Value.display fmtExt0 (Value.UINT 5) = .ok "UNIT(5)"
    ∧ "UNIT(5)" ≠ "UINT(5)"
    ∧ Value.display fmtExt0 (Value.UI4 5) = .ok "UI4(5)"
    ∧ Value.display fmtExt0 (Value.I4 (-7)) = .ok "I4(-7)"
    ∧ Value.display fmtExt0 (Value.CURRENCY 3) = .ok "CY(3)"
    ∧ Value.display fmtExt0 (Value.BOOL true) = .ok "BOOL(true)" :=
  ⟨rfl, by decide, rfl, rfl, rfl, rfl⟩
